import Mathlib

/-!
Verification development for the llamatrix Matrix/ollama bridge bot.

Shallow embedding of `src/llama.rs` and `src/main.rs`:

* `Chat`, `Chat.new`, `Chat.message` embed the LLM session (`llama.rs`).
  The network round trip is abstracted by a `NetResult` oracle: the POST
  can fail (`sendErr`), the body can fail to deserialize (`deserErr`), or
  a `ChatResponse` with some `Message` is obtained.  `Chat::message`
  contains `assert_eq!(resp.message.role, Role::Assistant)`, so a
  deserialized response whose role is not `assistant` panics; this is
  modelled by the `panicked` outcome.

* `llama_task` embeds the routing-actor loop of `main.rs`: it drains the
  mailbox (a list of requests, in arrival order) strictly sequentially,
  keeps the per-room session store (`HashMap<OwnedRoomId, Chat>`, modelled
  as an association list with the same remove/insert discipline as the
  source), and emits a trace of observable events.  Dropping the
  `tokio::sync::oneshot::Sender` without sending (the `Err` arm) closes
  the channel, which makes the receiver's await complete with a
  `RecvError`; this library semantics is modelled by `senderDropped` /
  `SlotOutcome.closed` / `awaitReply`.

* `handle_msg_event` embeds the command matching of the Matrix message
  handler (text messages from other users), and `handle_reply_loop`
  embeds its `select!` heartbeat loop racing the 3-second typing-notice
  timer against the oneshot receiver.
-/

namespace Llamatrix

/-- Embeds `enum Role` of `llama.rs`. -/
inductive Role
  | user
  | assistant
deriving DecidableEq

/-- Embeds `struct Message { role, content }` of `llama.rs`. -/
structure Message where
  role : Role
  content : String
deriving DecidableEq

/-- Embeds `struct Chat`/`struct ChatCtx` of `llama.rs`: the model name,
the `stream` flag, the ordered message history, and the server URL.
The reqwest client handle carries no state relevant here. -/
structure Chat where
  model : String
  stream : Bool
  messages : List Message
  url : String
deriving DecidableEq

/-- Embeds `Chat::new`: fresh client, empty history, `stream: false`. -/
def Chat.new (model url : String) : Chat :=
  { model := model, stream := false, messages := [], url := url }

/-- Oracle for the one network round trip inside `Chat::message`:
`sendErr` models `.send().await` failing, `deserErr` models
`.json::<ChatResponse>().await` failing (malformed body), and
`response m` models a successfully deserialized `ChatResponse`. -/
inductive NetResult
  | sendErr
  | deserErr
  | response (msg : Message)
deriving DecidableEq

/-- Outcome of one `Chat::message` call: `Ok(text)`, an `anyhow` error
propagated by `?`, or a panic of the calling task (the `assert_eq!` on
the response role). -/
inductive MsgOutcome
  | ok (reply : String)
  | backendErr
  | panicked
deriving DecidableEq

/-- Embeds `Chat::message` of `llama.rs`.  The user prompt is pushed onto
the history BEFORE the network call; the `?` on the network call and on
deserialization returns an error with the prompt already appended; on a
deserialized response the role is asserted to be `assistant` (panicking
otherwise, before the response message is pushed); on the assistant path
the response message is appended and its content returned. -/
def Chat.message (c : Chat) (prompt : String) (net : NetResult) :
    MsgOutcome × Chat :=
  let c1 := { c with messages := c.messages ++ [⟨Role.user, prompt⟩] }
  match net with
  | .sendErr => (.backendErr, c1)
  | .deserErr => (.backendErr, c1)
  | .response m =>
    if m.role = Role.assistant then
      (.ok m.content, { c1 with messages := c1.messages ++ [m] })
    else
      (.panicked, c1)

/-- Rust `str::strip_prefix` on character lists: `some rest` when the
first argument is an initial segment, `none` otherwise. -/
def dropLeadingChars : List Char → List Char → Option (List Char)
  | [], s => some s
  | _ :: _, [] => none
  | p :: ps, c :: cs => if c = p then dropLeadingChars ps cs else none

/-- Rust `str::strip_prefix` on strings. -/
def stripLeading (pre s : String) : Option String :=
  (dropLeadingChars pre.data s.data).map String.mk

/-- What the text-message arm of `handle_msg_event` does with a message:
ignore it, enqueue `LlamaReq::ClrCtx` (and confirm "Context cleared"), or
enqueue a `LlamaReq::Chat` with the given prompt (and start the
heartbeat loop). -/
inductive HandlerResult
  | ignored
  | clrCtx (room_id : String)
  | sendPrompt (room_id : String) (prompt : String)
deriving DecidableEq

/-- Embeds the command matching of `handle_msg_event` in `main.rs` for a
text message from another user: `matched = body.strip_prefix("!llama")`;
a non-direct room with no match is ignored; `prompt` is the stripped
remainder, or the whole body when there was no match; a prompt equal to
`"!llamaclear"` sends `ClrCtx`; anything else sends a chat request. -/
def handle_msg_event (is_direct : Bool) (room_id : String) (body : String) :
    HandlerResult :=
  let matched := stripLeading "!llama" body
  if !is_direct && !matched.isSome then
    .ignored
  else
    let prompt := matched.getD body
    if prompt = "!llamaclear" then
      .clrCtx room_id
    else
      .sendPrompt room_id prompt

/-- Embeds `struct LlamaChatReq` (minus the oneshot sender, whose
lifecycle is tracked in the trace): the target room and the prompt. -/
structure LlamaChatReq where
  room_id : String
  prompt : String
deriving DecidableEq

/-- Embeds `enum LlamaReq` of `main.rs`. -/
inductive LlamaReq
  | chat (req : LlamaChatReq)
  | clrCtx (rm : String)
deriving DecidableEq

/-- The actor's session store `HashMap<OwnedRoomId, Chat>`, modelled as
an association list with unique keys. -/
abbrev Store := List (String × Chat)

/-- `HashMap::get`-style lookup. -/
def lookupStore (st : Store) (k : String) : Option Chat :=
  (st.find? (fun p => p.1 == k)).map (fun p => p.2)

/-- The removal half of `HashMap::remove`. -/
def eraseStore (st : Store) (k : String) : Store :=
  st.filter (fun p => p.1 != k)

/-- `HashMap::insert` (replacing any previous binding). -/
def insertStore (st : Store) (k : String) (v : Chat) : Store :=
  (k, v) :: eraseStore st k

/-- Observable events of one `llama_task` loop, in program order:
`created` marks the `unwrap_or_else(|| Chat::new(..))` call; `callStart`
records the start of the LLM round trip together with the prompt and the
full message list sent as the request context; `callEnd` marks the round
trip returning (successfully or with an error); `fulfilledEv` marks
`reply_tx.send(resp)`; `errorLogged` marks the `error!` log line;
`senderDropped` marks the request (and its oneshot sender) being dropped
without a send at the end of the `Err` arm's iteration; `cleared` marks
a `ClrCtx` removal; `panicEv` marks the actor task panicking. -/
inductive TraceEv
  | created (room : String)
  | callStart (room : String) (prompt : String) (sentCtx : List Message)
  | callEnd (room : String)
  | fulfilledEv (room : String) (reply : String)
  | errorLogged (room : String)
  | senderDropped (room : String)
  | cleared (room : String)
  | panicEv
deriving DecidableEq

/-- One iteration of the `LlamaReq::Chat` arm of the `llama_task` loop:
remove the room's session from the store (`state.remove(..)`), create a
fresh one when absent (`unwrap_or_else(|| Chat::new(model, url))`), run
`chat.message(prompt)`, on `Ok` send the reply through the oneshot
sender, on `Err` log the error and (at the end of the iteration) drop
the sender unsent, then re-insert the session (`state.insert`).  Returns
the store after the iteration (`none` when the iteration panicked, which
kills the actor task before the insert) and the iteration's events. -/
def chatStep (model url : String) (st : Store) (req : LlamaChatReq)
    (net : NetResult) : Option Store × List TraceEv :=
  let chat0 := (lookupStore st req.room_id).getD (Chat.new model url)
  let fresh := (lookupStore st req.room_id).isNone
  let st0 := eraseStore st req.room_id
  let res := chat0.message req.prompt net
  let pre : List TraceEv :=
    (if fresh then [.created req.room_id] else []) ++
      [.callStart req.room_id req.prompt
          (chat0.messages ++ [⟨Role.user, req.prompt⟩]),
        .callEnd req.room_id]
  match res.1 with
  | .ok v =>
    (some (insertStore st0 req.room_id res.2),
      pre ++ [.fulfilledEv req.room_id v])
  | .backendErr =>
    (some (insertStore st0 req.room_id res.2),
      pre ++ [.errorLogged req.room_id, .senderDropped req.room_id])
  | .panicked =>
    (none, pre ++ [.panicEv])

/-- Embeds the `llama_task` loop of `main.rs`.  The mailbox contents are
given as the list of requests in arrival order (the mpsc channel is
FIFO); the list of `NetResult`s is the oracle for the successive network
round trips, one entry consumed per chat request (an exhausted oracle
defaults to a network failure).  The loop processes the requests one at
a time, in order: a `ClrCtx` removes the room's session, a `Chat` runs
`chatStep`; a panic kills the actor task, leaving the remaining mailbox
unprocessed. -/
def llama_task (model url : String) (st : Store) :
    List LlamaReq → List NetResult → Option Store × List TraceEv
  | [], _ => (some st, [])
  | .clrCtx rm :: rest, nets =>
    let r := llama_task model url (eraseStore st rm) rest nets
    (r.1, .cleared rm :: r.2)
  | .chat req :: rest, nets =>
    match (chatStep model url st req (nets.headD .sendErr)).1 with
    | some st1 =>
      let r := llama_task model url st1 rest nets.tail
      (r.1, (chatStep model url st req (nets.headD .sendErr)).2 ++ r.2)
    | none =>
      (none, (chatStep model url st req (nets.headD .sendErr)).2)

/-- Final state of the oneshot channel attached to the LAST chat request
for a room in the trace, from the receiver's point of view: scanning the
trace, `fulfilledEv` resolves it with a value and `senderDropped` closes
it; a slot never reached by either event stays `pending`. -/
inductive SlotOutcome
  | pending
  | fulfilled (v : String)
  | closed
deriving DecidableEq

/-- Scan a trace for the resolution of the room's reply slot. -/
def slotStateAfter (rm : String) : List TraceEv → SlotOutcome
  | [] => .pending
  | .fulfilledEv room v :: tr =>
    if room = rm then .fulfilled v else slotStateAfter rm tr
  | .senderDropped room :: tr =>
    if room = rm then .closed else slotStateAfter rm tr
  | _ :: tr => slotStateAfter rm tr

/-- What `(&mut rx).await` in the handler's `select!` yields. -/
inductive SlotRead
  | value (v : String)
  | recvError
deriving DecidableEq

/-- tokio oneshot semantics of awaiting the receiver: a pending slot
never completes (`none`); a fulfilled slot completes with the value; a
slot whose sender was dropped completes with `RecvError`. -/
def awaitReply : SlotOutcome → Option SlotRead
  | .pending => none
  | .fulfilled v => some (.value v)
  | .closed => some .recvError

/-- Observable events of the handler's heartbeat `select!` loop. -/
inductive RelayEv
  | typingTrue
  | typingFalse
  | msgSent (v : String)
  | panicUnwrap
deriving DecidableEq

/-- Embeds the `select!` loop at the end of `handle_msg_event`: `ticks`
is the number of times the 3-second sleep wins the race before the
receiver completes (the timing schedule).  Each tick emits
`typing_notice(true)`; when the receiver completes, the loop emits
`typing_notice(false)` and then evaluates `resp.unwrap()`: on a value it
sends the room message and breaks, on `RecvError` the unwrap panics the
handler task. -/
def handle_reply_loop (ticks : Nat) (res : SlotRead) : List RelayEv :=
  List.replicate ticks .typingTrue ++
    match res with
    | .value v => [.typingFalse, .msgSent v]
    | .recvError => [.typingFalse, .panicUnwrap]

/-- The processing-relevant identity of a request: which room and, for a
chat request, which prompt. -/
inductive ReqKey
  | chatK (room : String) (prompt : String)
  | clrK (room : String)
deriving DecidableEq

/-- The key of each mailbox request, in arrival order. -/
def reqKeys (reqs : List LlamaReq) : List ReqKey :=
  reqs.map fun r =>
    match r with
    | .chat c => .chatK c.room_id c.prompt
    | .clrCtx rm => .clrK rm

/-- The key of each request the actor actually processed, in trace
order: a `callStart` witnesses a processed chat request, a `cleared`
witnesses a processed clear request. -/
def traceKeys (tr : List TraceEv) : List ReqKey :=
  tr.filterMap fun e =>
    match e with
    | .callStart rm p _ => some (.chatK rm p)
    | .cleared rm => some (.clrK rm)
    | _ => none

/-- The room, prompt and full request context of each LLM round trip in
the trace, in order. -/
def startCtxs (tr : List TraceEv) : List (String × String × List Message) :=
  tr.filterMap fun e =>
    match e with
    | .callStart rm p c => some (rm, p, c)
    | _ => none

/-- Number of round-trip starts in a trace. -/
def nStarts (tr : List TraceEv) : Nat :=
  tr.countP fun e =>
    match e with
    | .callStart _ _ _ => true
    | _ => false

/-- Number of round-trip completions in a trace. -/
def nEnds (tr : List TraceEv) : Nat :=
  tr.countP fun e =>
    match e with
    | .callEnd _ => true
    | _ => false

/-- Events that are neither a round-trip start nor a round-trip end. -/
def notCall (e : TraceEv) : Bool :=
  match e with
  | .callStart _ _ _ => false
  | .callEnd _ => false
  | _ => true

/-- Traces in which every LLM round trip completes before the next one
starts: each `callStart` is immediately followed by its `callEnd`. -/
inductive SerialTrace : List TraceEv → Prop
  | nil : SerialTrace []
  | skip (e : TraceEv) (tr : List TraceEv) :
      notCall e = true → SerialTrace tr → SerialTrace (e :: tr)
  | call (rm p : String) (c : List Message) (rm2 : String)
      (tr : List TraceEv) : SerialTrace tr →
      SerialTrace (.callStart rm p c :: .callEnd rm2 :: tr)

/-- A network oracle entry that cannot trip the role assertion. -/
def netSafe (n : NetResult) : Prop :=
  match n with
  | .response m => m.role = Role.assistant
  | _ => True

instance (n : NetResult) : Decidable (netSafe n) := by
  unfold netSafe
  match n with
  | .sendErr => exact inferInstance
  | .deserErr => exact inferInstance
  | .response m => exact inferInstance

/-- The session stored for a room at the end of a run, when the actor
survived. -/
def finalLookup (r : Option Store × List TraceEv) (k : String) :
    Option Chat :=
  r.1.bind fun s => lookupStore s k

/-! Helper lemmas about the store and about single actor iterations. -/

theorem lookupStore_eraseStore_self (st : Store) (k : String) :
    lookupStore (eraseStore st k) k = none := by
  induction st with
  | nil => rfl
  | cons p rest ih =>
    by_cases h : p.1 = k
    · simpa [eraseStore, lookupStore, List.filter_cons, h] using ih
    · simpa [eraseStore, lookupStore, List.filter_cons, List.find?_cons, h]
        using ih

theorem lookupStore_insertStore_self (st : Store) (k : String) (v : Chat) :
    lookupStore (insertStore st k v) k = some v := by
  simp [insertStore, lookupStore, List.find?_cons]

/-- `chatStep` on a failing network send, fully computed. -/
theorem chatStep_sendErr (model url : String) (st : Store)
    (req : LlamaChatReq) :
    chatStep model url st req .sendErr =
      (some (insertStore (eraseStore st req.room_id) req.room_id
          { (lookupStore st req.room_id).getD (Chat.new model url) with
              messages :=
                ((lookupStore st req.room_id).getD
                    (Chat.new model url)).messages ++
                  [⟨Role.user, req.prompt⟩] }),
        (if (lookupStore st req.room_id).isNone then
            [.created req.room_id] else []) ++
          [.callStart req.room_id req.prompt
              (((lookupStore st req.room_id).getD
                  (Chat.new model url)).messages ++
                [⟨Role.user, req.prompt⟩]),
            .callEnd req.room_id, .errorLogged req.room_id,
            .senderDropped req.room_id]) := by
  simp [chatStep, Chat.message]

/-- `chatStep` on a malformed response body, fully computed. -/
theorem chatStep_deserErr (model url : String) (st : Store)
    (req : LlamaChatReq) :
    chatStep model url st req .deserErr =
      chatStep model url st req .sendErr := by
  rfl

/-- `chatStep` on a well-formed assistant response, fully computed. -/
theorem chatStep_assistant (model url : String) (st : Store)
    (req : LlamaChatReq) (a : String) :
    chatStep model url st req (.response ⟨Role.assistant, a⟩) =
      (some (insertStore (eraseStore st req.room_id) req.room_id
          { (lookupStore st req.room_id).getD (Chat.new model url) with
              messages :=
                ((lookupStore st req.room_id).getD
                    (Chat.new model url)).messages ++
                  [⟨Role.user, req.prompt⟩, ⟨Role.assistant, a⟩] }),
        (if (lookupStore st req.room_id).isNone then
            [.created req.room_id] else []) ++
          [.callStart req.room_id req.prompt
              (((lookupStore st req.room_id).getD
                  (Chat.new model url)).messages ++
                [⟨Role.user, req.prompt⟩]),
            .callEnd req.room_id, .fulfilledEv req.room_id a]) := by
  simp [chatStep, Chat.message]

/-- `chatStep` on a response carrying a user-role message: the
`assert_eq!` fires and the actor task panics. -/
theorem chatStep_userRole (model url : String) (st : Store)
    (req : LlamaChatReq) (a : String) :
    chatStep model url st req (.response ⟨Role.user, a⟩) =
      (none,
        (if (lookupStore st req.room_id).isNone then
            [.created req.room_id] else []) ++
          [.callStart req.room_id req.prompt
              (((lookupStore st req.room_id).getD
                  (Chat.new model url)).messages ++
                [⟨Role.user, req.prompt⟩]),
            .callEnd req.room_id, .panicEv]) := by
  simp [chatStep, Chat.message]

theorem llama_task_nil (model url : String) (st : Store)
    (nets : List NetResult) :
    llama_task model url st [] nets = (some st, []) := rfl

theorem llama_task_clr (model url : String) (st : Store) (rm : String)
    (rest : List LlamaReq) (nets : List NetResult) :
    llama_task model url st (.clrCtx rm :: rest) nets =
      ((llama_task model url (eraseStore st rm) rest nets).1,
        .cleared rm :: (llama_task model url (eraseStore st rm) rest nets).2) :=
  rfl

theorem llama_task_chat (model url : String) (st : Store)
    (req : LlamaChatReq) (rest : List LlamaReq) (nets : List NetResult) :
    llama_task model url st (.chat req :: rest) nets =
      match (chatStep model url st req (nets.headD .sendErr)).1 with
      | some st1 =>
        ((llama_task model url st1 rest nets.tail).1,
          (chatStep model url st req (nets.headD .sendErr)).2 ++
            (llama_task model url st1 rest nets.tail).2)
      | none =>
        (none, (chatStep model url st req (nets.headD .sendErr)).2) := rfl

@[simp] theorem traceKeys_nil : traceKeys [] = [] := rfl

@[simp] theorem traceKeys_cons (e : TraceEv) (tr : List TraceEv) :
    traceKeys (e :: tr) =
      (match e with
        | .callStart rm p _ => [ReqKey.chatK rm p]
        | .cleared rm => [ReqKey.clrK rm]
        | _ => []) ++ traceKeys tr := by
  cases e <;> rfl

@[simp] theorem traceKeys_append (l1 l2 : List TraceEv) :
    traceKeys (l1 ++ l2) = traceKeys l1 ++ traceKeys l2 := by
  simp [traceKeys, List.filterMap_append]

@[simp] theorem startCtxs_nil : startCtxs [] = [] := rfl

@[simp] theorem startCtxs_cons (e : TraceEv) (tr : List TraceEv) :
    startCtxs (e :: tr) =
      (match e with
        | .callStart rm p c => [(rm, p, c)]
        | _ => []) ++ startCtxs tr := by
  cases e <;> rfl

@[simp] theorem startCtxs_append (l1 l2 : List TraceEv) :
    startCtxs (l1 ++ l2) = startCtxs l1 ++ startCtxs l2 := by
  simp [startCtxs, List.filterMap_append]

@[simp] theorem reqKeys_nil : reqKeys [] = [] := rfl

@[simp] theorem reqKeys_cons_chat (c : LlamaChatReq) (l : List LlamaReq) :
    reqKeys (.chat c :: l) = .chatK c.room_id c.prompt :: reqKeys l := rfl

@[simp] theorem reqKeys_cons_clr (rm : String) (l : List LlamaReq) :
    reqKeys (.clrCtx rm :: l) = .clrK rm :: reqKeys l := rfl

/-- In a serial trace, every prefix has at most one more round-trip
start than round-trip completions: at no instant are two LLM calls in
flight. -/
theorem serialTrace_starts_le (tr : List TraceEv) (h : SerialTrace tr) :
    ∀ n, nStarts (tr.take n) ≤ nEnds (tr.take n) + 1 := by
  induction h with
  | nil => intro n; simp [nStarts, nEnds]
  | skip e tr hnot htr ih =>
    intro n
    cases n with
    | zero => simp [nStarts, nEnds]
    | succ n =>
      have hs := ih n
      cases e <;> simp_all [nStarts, nEnds, List.countP_cons, notCall]
  | call rm p c rm2 tr htr ih =>
    intro n
    match n with
    | 0 => simp [nStarts, nEnds]
    | 1 => simp [nStarts, nEnds, List.countP_cons]
    | (n + 2) =>
      have hs := ih n
      simp only [List.take_succ_cons, nStarts, nEnds, List.countP_cons] at hs ⊢
      simp at hs ⊢
      omega

/-- The events of one chat iteration, prepended to any serial trace,
form a serial trace: the iteration's single round trip completes before
anything else happens. -/
theorem chatStep_trace_serial (model url : String) (st : Store)
    (req : LlamaChatReq) (net : NetResult) (tr : List TraceEv)
    (h : SerialTrace tr) :
    SerialTrace ((chatStep model url st req net).2 ++ tr) := by
  cases net with
  | sendErr =>
    rw [chatStep_sendErr]
    by_cases hf : (lookupStore st req.room_id).isNone = true <;> simp [hf]
    · exact .skip _ _ rfl (.call _ _ _ _ _ (.skip _ _ rfl (.skip _ _ rfl h)))
    · exact .call _ _ _ _ _ (.skip _ _ rfl (.skip _ _ rfl h))
  | deserErr =>
    rw [chatStep_deserErr, chatStep_sendErr]
    by_cases hf : (lookupStore st req.room_id).isNone = true <;> simp [hf]
    · exact .skip _ _ rfl (.call _ _ _ _ _ (.skip _ _ rfl (.skip _ _ rfl h)))
    · exact .call _ _ _ _ _ (.skip _ _ rfl (.skip _ _ rfl h))
  | response m =>
    obtain ⟨r, a⟩ := m
    cases r with
    | user =>
      rw [chatStep_userRole]
      by_cases hf : (lookupStore st req.room_id).isNone = true <;> simp [hf]
      · exact .skip _ _ rfl (.call _ _ _ _ _ (.skip _ _ rfl h))
      · exact .call _ _ _ _ _ (.skip _ _ rfl h)
    | assistant =>
      rw [chatStep_assistant]
      by_cases hf : (lookupStore st req.room_id).isNone = true <;> simp [hf]
      · exact .skip _ _ rfl (.call _ _ _ _ _ (.skip _ _ rfl h))
      · exact .call _ _ _ _ _ (.skip _ _ rfl h)

/-- The whole actor trace is serial, for every mailbox, store and
network oracle: the LLM round trips never overlap. -/
theorem llama_task_serial (model url : String) :
    ∀ (reqs : List LlamaReq) (st : Store) (nets : List NetResult),
      SerialTrace (llama_task model url st reqs nets).2 := by
  intro reqs
  induction reqs with
  | nil => intro st nets; exact .nil
  | cons r rest ih =>
    intro st nets
    cases r with
    | clrCtx rm =>
      rw [llama_task_clr]
      exact .skip _ _ rfl (ih (eraseStore st rm) nets)
    | chat req =>
      rw [llama_task_chat]
      rcases ho : (chatStep model url st req (nets.headD .sendErr)).1
        with _ | st1
      · simp only [ho]
        simpa using
          chatStep_trace_serial model url st req (nets.headD .sendErr) [] .nil
      · simp only [ho]
        exact chatStep_trace_serial model url st req (nets.headD .sendErr) _
          (ih st1 nets.tail)

/-- The request keys witnessed by one chat iteration, when the network
oracle entry cannot trip the role assertion: exactly the one chat
request, and the iteration does not panic. -/
theorem traceKeys_chatStep (model url : String) (st : Store)
    (req : LlamaChatReq) (net : NetResult) (hn : netSafe net) :
    traceKeys (chatStep model url st req net).2 =
        [.chatK req.room_id req.prompt] ∧
      (chatStep model url st req net).1.isSome = true := by
  cases net with
  | sendErr =>
    rw [chatStep_sendErr]
    by_cases hf : (lookupStore st req.room_id).isNone = true <;> simp [hf]
  | deserErr =>
    rw [chatStep_deserErr, chatStep_sendErr]
    by_cases hf : (lookupStore st req.room_id).isNone = true <;> simp [hf]
  | response m =>
    obtain ⟨r, a⟩ := m
    cases r with
    | user => exact absurd hn (by simp [netSafe])
    | assistant =>
      rw [chatStep_assistant]
      by_cases hf : (lookupStore st req.room_id).isNone = true <;> simp [hf]

/-- With a panic-free oracle the actor processes every request, in
exactly the order enqueued: the trace keys are the mailbox keys. -/
theorem llama_task_keys (model url : String) :
    ∀ (reqs : List LlamaReq) (st : Store) (nets : List NetResult),
      (∀ n ∈ nets, netSafe n) →
      traceKeys (llama_task model url st reqs nets).2 = reqKeys reqs := by
  intro reqs
  induction reqs with
  | nil => intro st nets _; simp [llama_task_nil]
  | cons r rest ih =>
    intro st nets h
    cases r with
    | clrCtx rm =>
      rw [llama_task_clr]
      simpa using ih (eraseStore st rm) nets h
    | chat req =>
      have hnet : netSafe (nets.headD .sendErr) := by
        cases nets with
        | nil => simp [netSafe]
        | cons a t => exact h a (by simp)
      obtain ⟨hk, hsome⟩ := traceKeys_chatStep model url st req _ hnet
      rcases ho : (chatStep model url st req (nets.headD .sendErr)).1
        with _ | st1
      · rw [ho] at hsome; simp at hsome
      · have htail : ∀ n ∈ nets.tail, netSafe n := by
          intro n hmem
          cases nets with
          | nil => simp at hmem
          | cons a t => exact h n (List.mem_cons_of_mem a (by simpa using hmem))
        rw [llama_task_chat]
        simp only [ho]
        simp only [traceKeys_append, hk, ih st1 nets.tail htail,
          List.singleton_append, reqKeys_cons_chat]

@[simp] theorem slotStateAfter_nil (rm : String) :
    slotStateAfter rm [] = .pending := rfl

@[simp] theorem slotStateAfter_created (rm room : String)
    (tr : List TraceEv) :
    slotStateAfter rm (.created room :: tr) = slotStateAfter rm tr := rfl

@[simp] theorem slotStateAfter_callStart (rm room p : String)
    (c : List Message) (tr : List TraceEv) :
    slotStateAfter rm (.callStart room p c :: tr) = slotStateAfter rm tr :=
  rfl

@[simp] theorem slotStateAfter_callEnd (rm room : String)
    (tr : List TraceEv) :
    slotStateAfter rm (.callEnd room :: tr) = slotStateAfter rm tr := rfl

@[simp] theorem slotStateAfter_errorLogged (rm room : String)
    (tr : List TraceEv) :
    slotStateAfter rm (.errorLogged room :: tr) = slotStateAfter rm tr := rfl

@[simp] theorem slotStateAfter_cleared (rm room : String)
    (tr : List TraceEv) :
    slotStateAfter rm (.cleared room :: tr) = slotStateAfter rm tr := rfl

@[simp] theorem slotStateAfter_panicEv (rm : String) (tr : List TraceEv) :
    slotStateAfter rm (.panicEv :: tr) = slotStateAfter rm tr := rfl

@[simp] theorem slotStateAfter_fulfilled (rm room v : String)
    (tr : List TraceEv) :
    slotStateAfter rm (.fulfilledEv room v :: tr) =
      if room = rm then .fulfilled v else slotStateAfter rm tr := rfl

@[simp] theorem slotStateAfter_dropped (rm room : String)
    (tr : List TraceEv) :
    slotStateAfter rm (.senderDropped room :: tr) =
      if room = rm then .closed else slotStateAfter rm tr := rfl

/-! Claim theorems. -/

/-- C1: the claim says a text body exactly `"!llamaclear"` yields a
`ClearContext` request and no `SendPrompt`.  The code strips the
`"!llama"` prefix first and compares the stripped remainder (here
`"clear"`) to the literal `"!llamaclear"`, so the body `"!llamaclear"`
enqueues a `SendPrompt` with prompt `"clear"` in both direct and group
rooms and never a `ClearContext`; only the body `"!llama!llamaclear"`
reaches the clear branch.  This theorem evaluates the handler at the
failing input (and at the only body that does reach the clear branch). -/
theorem C1_clear_command_unreachable :
    handle_msg_event true "!rm" "!llamaclear" = .sendPrompt "!rm" "clear" ∧
      handle_msg_event false "!rm" "!llamaclear" =
        .sendPrompt "!rm" "clear" ∧
      handle_msg_event true "!rm" "!llama!llamaclear" = .clrCtx "!rm" := by
  decide

/-- C3 counterexample: `"!llama hello"` in a group conversation does not
yield prompt exactly `"hello"`: `strip_prefix("!llama")` keeps the
space, so the prompt is `" hello"`. -/
theorem C3_counterexample :
    ¬ handle_msg_event false "rm" "!llama hello" =
        .sendPrompt "rm" "hello" := by
  decide

/-- C3 (amended): `"!llama hello"` in a group conversation yields a
`SendPrompt` whose prompt is `" hello"` — everything after the
`"!llama"` prefix, leading space included; a bare `"hello"` in a group
conversation yields no request; the same bare `"hello"` in a one-to-one
conversation yields a `SendPrompt` with prompt exactly `"hello"`. -/
theorem C3_amended :
    handle_msg_event false "rm" "!llama hello" = .sendPrompt "rm" " hello" ∧
      handle_msg_event false "rm" "hello" = .ignored ∧
      handle_msg_event true "rm" "hello" = .sendPrompt "rm" "hello" := by
  decide

/-- C5 counterexample: a response that deserializes fine but carries a
user-role message makes `Chat::message` panic (the `assert_eq!`), which
is neither the reply text nor a `BackendError` value. -/
theorem C5_counterexample :
    (Chat.message (Chat.new "mm" "uu") "hey"
          (.response ⟨.user, "z"⟩)).1 = .panicked ∧
      MsgOutcome.panicked ≠ .ok "z" ∧ MsgOutcome.panicked ≠ .backendErr := by
  decide

/-- C5 (amended): `Chat::message` returns the reply text on an
assistant-role response, fails with an error value exactly when the
network call fails or the body fails to deserialize, and PANICS (rather
than returning an error) when the response deserializes with a
non-assistant role.  The four cases exhaust the oracle. -/
theorem C5_amended (c : Chat) (p a : String) :
    (Chat.message c p .sendErr).1 = .backendErr ∧
      (Chat.message c p .deserErr).1 = .backendErr ∧
      (Chat.message c p (.response ⟨.assistant, a⟩)).1 = .ok a ∧
      (Chat.message c p (.response ⟨.user, a⟩)).1 = .panicked := by
  exact ⟨rfl, rfl, rfl, rfl⟩

/-- C4 counterexample: a core code path panics: `Chat::message` asserts
the response role is `Assistant`, and that panic kills the routing-actor
task (`llama_task` final state `none`). -/
theorem C4_counterexample :
    (Chat.message (Chat.new "m" "u") "hi"
          (.response ⟨.user, "oops"⟩)).1 = .panicked ∧
      (llama_task "m" "u" [] [.chat ⟨"rm", "hi"⟩]
          [.response ⟨.user, "oops"⟩]).1 = none := by
  decide

/-- C4 (amended): LLM round-trip failures (network, malformed body) are
surfaced as error values, the actor logs a failed round trip and keeps
running (never escalating it), but NOT every core path is panic-free:
`Chat::message` panics exactly when the deserialized response's role is
not `assistant` (its `assert_eq!`), killing the actor task; the handler
and actor also `unwrap()` channel and room operations. -/
theorem C4_amended (c : Chat) (p : String) (m : Message) (model url : String)
    (st : Store) (id q : String) :
    (Chat.message c p .sendErr).1 = .backendErr ∧
      (Chat.message c p .deserErr).1 = .backendErr ∧
      ((Chat.message c p (.response m)).1 = .panicked ↔
        m.role ≠ Role.assistant) ∧
      (llama_task model url st [.chat ⟨id, q⟩] [.sendErr]).1.isSome = true := by
  refine ⟨rfl, rfl, ?_, ?_⟩
  · obtain ⟨r, a⟩ := m
    cases r <;> simp [Chat.message]
  · rw [llama_task_chat]
    simp [chatStep_sendErr, llama_task_nil]

/-- C4 witness: the amended statement applied to concrete inputs. -/
theorem C4_amended_witness :
    (Chat.message (Chat.new "m2" "u2") "q" .sendErr).1 = .backendErr ∧
      (Chat.message (Chat.new "m2" "u2") "q"
          (.response ⟨.user, "w"⟩)).1 = .panicked :=
  ⟨(C4_amended (Chat.new "m2" "u2") "q" ⟨.user, "w"⟩ "m2" "u2" [] "rm" "q").1,
    (C4_amended (Chat.new "m2" "u2") "q" ⟨.user, "w"⟩ "m2" "u2" []
        "rm" "q").2.2.1.mpr (by decide)⟩

/-- C9: when the reply slot resolves with a value after `n` timer ticks,
the heartbeat loop emits the stop-working signal (`typing_notice(false)`)
exactly once, delivers the resolved value to the room, and stops: after
position `n` (the moment of resolution) the trace is exactly the stop
signal followed by the delivery, and no further still-working heartbeat
occurs, under any timing `n`. -/
theorem C9_relay_done (n : Nat) (v : String) :
    List.count .typingFalse (handle_reply_loop n (.value v)) = 1 ∧
      (handle_reply_loop n (.value v)).drop n =
        [.typingFalse, .msgSent v] ∧
      .typingTrue ∉ (handle_reply_loop n (.value v)).drop n := by
  unfold handle_reply_loop
  have hdrop :
      (List.replicate n RelayEv.typingTrue ++
          [RelayEv.typingFalse, RelayEv.msgSent v]).drop n =
        [RelayEv.typingFalse, RelayEv.msgSent v] :=
    List.drop_left' (List.length_replicate n _)
  refine ⟨?_, hdrop, ?_⟩
  · simp [List.count_append, List.count_replicate, List.count_cons]
  · rw [hdrop]
    simp

/-- C2 counterexample: after the actor processes a `SendPrompt` whose
round trip failed, the reply slot is NOT left pending: the request (and
its oneshot sender) is dropped, which closes the channel, and awaiting
the receiver completes with `RecvError` — the caller does not wait
forever. -/
theorem C2_counterexample :
    slotStateAfter "rm"
        (llama_task "m" "u" [] [.chat ⟨"rm", "p"⟩] [.sendErr]).2 =
        .closed ∧
      awaitReply .closed = some .recvError ∧
      SlotOutcome.closed ≠ .pending := by
  decide

/-- C2 (amended): on a failed round trip the actor logs the error and
never writes a value to the reply slot, but the slot does not stay
pending: the sender is dropped, the channel closes, the caller's await
completes with a channel-closed error, and the handler's
`resp.unwrap()` then panics the handler task (after stopping the typing
notice). -/
theorem C2_amended (model url : String) (st : Store) (id p : String)
    (net : NetResult) (hn : net = .sendErr ∨ net = .deserErr) (n : Nat) :
    .errorLogged id ∈ (llama_task model url st [.chat ⟨id, p⟩] [net]).2 ∧
      slotStateAfter id
          (llama_task model url st [.chat ⟨id, p⟩] [net]).2 = .closed ∧
      awaitReply .closed = some .recvError ∧
      handle_reply_loop n .recvError =
        List.replicate n .typingTrue ++ [.typingFalse, .panicUnwrap] := by
  rcases hn with h | h <;> subst h <;>
    rw [llama_task_chat] <;>
    simp only [List.headD_cons, List.tail_cons, chatStep_deserErr,
      chatStep_sendErr, llama_task_nil] <;>
    by_cases hf : (lookupStore st id).isNone = true <;>
    simp [hf, handle_reply_loop, awaitReply]

/-- C2 witness: the amended statement applied to concrete inputs. -/
theorem C2_amended_witness :
    .errorLogged "rm" ∈
        (llama_task "m" "u" [] [.chat ⟨"rm", "p"⟩] [.sendErr]).2 ∧
      slotStateAfter "rm"
          (llama_task "m" "u" [] [.chat ⟨"rm", "p"⟩] [.sendErr]).2 =
        .closed ∧
      awaitReply .closed = some .recvError ∧
      handle_reply_loop 2 .recvError =
        List.replicate 2 .typingTrue ++ [.typingFalse, .panicUnwrap] :=
  C2_amended "m" "u" [] "rm" "p" .sendErr (Or.inl rfl) 2

/-- C6: for every mailbox content, store and panic-free network oracle,
the actor processes the requests in exactly the order enqueued (the
trace keys equal the mailbox keys, a single global FIFO across all
conversations), and every trace prefix has at most one more round-trip
start than completions: two LLM round trips are never in flight
concurrently. -/
theorem C6_fifo_serial (model url : String) (st : Store)
    (reqs : List LlamaReq) (nets : List NetResult)
    (h : ∀ n ∈ nets, netSafe n) :
    traceKeys (llama_task model url st reqs nets).2 = reqKeys reqs ∧
      ∀ n, nStarts ((llama_task model url st reqs nets).2.take n) ≤
        nEnds ((llama_task model url st reqs nets).2.take n) + 1 :=
  ⟨llama_task_keys model url reqs st nets h,
    serialTrace_starts_le _ (llama_task_serial model url reqs st nets)⟩

/-- C6 witness: a three-request mailbox touching two rooms, processed in
order with no concurrent round trips. -/
theorem C6_fifo_serial_witness :
    traceKeys (llama_task "m" "u" []
          [.chat ⟨"a", "p1"⟩, .clrCtx "b", .chat ⟨"a", "p2"⟩]
          [.response ⟨.assistant, "r1"⟩, .sendErr]).2 =
        reqKeys [.chat ⟨"a", "p1"⟩, .clrCtx "b", .chat ⟨"a", "p2"⟩] ∧
      nStarts ((llama_task "m" "u" []
          [.chat ⟨"a", "p1"⟩, .clrCtx "b", .chat ⟨"a", "p2"⟩]
          [.response ⟨.assistant, "r1"⟩, .sendErr]).2.take 4) ≤
        nEnds ((llama_task "m" "u" []
          [.chat ⟨"a", "p1"⟩, .clrCtx "b", .chat ⟨"a", "p2"⟩]
          [.response ⟨.assistant, "r1"⟩, .sendErr]).2.take 4) + 1 :=
  ⟨(C6_fifo_serial "m" "u" []
      [.chat ⟨"a", "p1"⟩, .clrCtx "b", .chat ⟨"a", "p2"⟩]
      [.response ⟨.assistant, "r1"⟩, .sendErr] (by decide)).1,
    (C6_fifo_serial "m" "u" []
      [.chat ⟨"a", "p1"⟩, .clrCtx "b", .chat ⟨"a", "p2"⟩]
      [.response ⟨.assistant, "r1"⟩, .sendErr] (by decide)).2 4⟩

/-- C7: a `SendPrompt` for an id not in the store creates exactly one
new, empty session (one `created` event; the first round trip's context
is just the new user prompt); a second `SendPrompt` for the same id
reuses that session (no second `created`; the second context carries the
first turn's history); after each successful round trip the session
stays in the store with its accumulated history. -/
theorem C7_session_lifecycle (model url : String) (st : Store)
    (id p p2 r1 r2 : String) (h : lookupStore st id = none) :
    (llama_task model url st [.chat ⟨id, p⟩, .chat ⟨id, p2⟩]
        [.response ⟨.assistant, r1⟩, .response ⟨.assistant, r2⟩]).2 =
      [.created id, .callStart id p [⟨.user, p⟩], .callEnd id,
        .fulfilledEv id r1,
        .callStart id p2 [⟨.user, p⟩, ⟨.assistant, r1⟩, ⟨.user, p2⟩],
        .callEnd id, .fulfilledEv id r2] ∧
      finalLookup (llama_task model url st [.chat ⟨id, p⟩, .chat ⟨id, p2⟩]
          [.response ⟨.assistant, r1⟩, .response ⟨.assistant, r2⟩]) id =
        some ⟨model, false,
          [⟨.user, p⟩, ⟨.assistant, r1⟩, ⟨.user, p2⟩, ⟨.assistant, r2⟩],
          url⟩ := by
  simp [llama_task_chat, List.headD_cons, List.tail_cons, chatStep_assistant,
    h, llama_task_nil, lookupStore_insertStore_self, Chat.new, finalLookup]

/-- C7 witness: the statement applied to the empty store. -/
theorem C7_session_lifecycle_witness :
    (llama_task "m" "u" [] [.chat ⟨"a", "p"⟩, .chat ⟨"a", "q"⟩]
        [.response ⟨.assistant, "x"⟩, .response ⟨.assistant, "y"⟩]).2 =
      [.created "a", .callStart "a" "p" [⟨.user, "p"⟩], .callEnd "a",
        .fulfilledEv "a" "x",
        .callStart "a" "q" [⟨.user, "p"⟩, ⟨.assistant, "x"⟩, ⟨.user, "q"⟩],
        .callEnd "a", .fulfilledEv "a" "y"] ∧
      finalLookup (llama_task "m" "u" [] [.chat ⟨"a", "p"⟩, .chat ⟨"a", "q"⟩]
          [.response ⟨.assistant, "x"⟩, .response ⟨.assistant, "y"⟩]) "a" =
        some ⟨"m", false,
          [⟨.user, "p"⟩, ⟨.assistant, "x"⟩, ⟨.user, "q"⟩,
            ⟨.assistant, "y"⟩], "u"⟩ :=
  C7_session_lifecycle "m" "u" [] "a" "p" "q" "x" "y" rfl

/-- C8: processing `ClearContext id` and then `SendPrompt id` behaves
exactly as if id never existed: after the clear the store has no session
for id, the rest of the run (trace and resulting session for id) equals
the run from the empty store, and the round trip is performed on a fresh
session whose request context is just the new prompt — no residual
history. -/
theorem C8_clear_then_send (model url : String) (st : Store) (id p : String)
    (net : NetResult) :
    lookupStore (eraseStore st id) id = none ∧
      (llama_task model url st [.clrCtx id, .chat ⟨id, p⟩] [net]).2 =
        .cleared id :: (llama_task model url [] [.chat ⟨id, p⟩] [net]).2 ∧
      finalLookup
          (llama_task model url st [.clrCtx id, .chat ⟨id, p⟩] [net]) id =
        finalLookup (llama_task model url [] [.chat ⟨id, p⟩] [net]) id ∧
      startCtxs
          (llama_task model url st [.clrCtx id, .chat ⟨id, p⟩] [net]).2 =
        [(id, p, [⟨.user, p⟩])] := by
  have h1 : lookupStore (eraseStore st id) id = none :=
    lookupStore_eraseStore_self st id
  have h2 : lookupStore ([] : Store) id = none := rfl
  refine ⟨h1, ?_, ?_, ?_⟩ <;>
    (cases net with
     | sendErr =>
       simp [llama_task_clr, llama_task_chat, chatStep_sendErr,
         llama_task_nil, h1, h2, finalLookup, lookupStore_insertStore_self,
         Chat.new]
     | deserErr =>
       simp [llama_task_clr, llama_task_chat, chatStep_deserErr,
         chatStep_sendErr, llama_task_nil, h1, h2, finalLookup,
         lookupStore_insertStore_self, Chat.new]
     | response m =>
       obtain ⟨r, a⟩ := m
       cases r with
       | user =>
         simp [llama_task_clr, llama_task_chat, chatStep_userRole,
           llama_task_nil, h1, h2, finalLookup, Chat.new]
       | assistant =>
         simp [llama_task_clr, llama_task_chat, chatStep_assistant,
           llama_task_nil, h1, h2, finalLookup,
           lookupStore_insertStore_self, Chat.new])

/-- C10: when the round trip of a `SendPrompt` fails, the session is not
rolled back: the user prompt pushed before the network call stays in the
history, the session is re-inserted into the store with that history,
and the next round trip for the conversation sends a context that still
contains the failed prompt. -/
theorem C10_failed_prompt_retained (model url : String) (st : Store)
    (id p p2 : String) (net net2 : NetResult)
    (h : net = .sendErr ∨ net = .deserErr) :
    (llama_task model url st [.chat ⟨id, p⟩] [net]).1 =
        some (insertStore (eraseStore st id) id
          { (lookupStore st id).getD (Chat.new model url) with
              messages :=
                ((lookupStore st id).getD (Chat.new model url)).messages ++
                  [⟨.user, p⟩] }) ∧
      startCtxs (llama_task model url
          (insertStore (eraseStore st id) id
            { (lookupStore st id).getD (Chat.new model url) with
                messages :=
                  ((lookupStore st id).getD (Chat.new model url)).messages ++
                    [⟨.user, p⟩] }) [.chat ⟨id, p2⟩] [net2]).2 =
        [(id, p2,
          (((lookupStore st id).getD (Chat.new model url)).messages ++
            [⟨.user, p⟩]) ++ [⟨.user, p2⟩])] := by
  constructor
  · rcases h with h | h <;> subst h <;>
      simp [llama_task_chat, chatStep_deserErr, chatStep_sendErr,
        llama_task_nil]
  · cases net2 with
    | sendErr =>
      simp [llama_task_chat, chatStep_sendErr, llama_task_nil,
        lookupStore_insertStore_self]
    | deserErr =>
      simp [llama_task_chat, chatStep_deserErr, chatStep_sendErr,
        llama_task_nil, lookupStore_insertStore_self]
    | response m =>
      obtain ⟨r, a⟩ := m
      cases r with
      | user =>
        simp [llama_task_chat, chatStep_userRole,
          lookupStore_insertStore_self]
      | assistant =>
        simp [llama_task_chat, chatStep_assistant, llama_task_nil,
          lookupStore_insertStore_self]

/-- C10 witness: the statement applied to concrete inputs. -/
theorem C10_failed_prompt_retained_witness :
    (llama_task "m" "u" [] [.chat ⟨"a", "p"⟩] [.sendErr]).1 =
        some (insertStore (eraseStore [] "a") "a"
          { (lookupStore [] "a").getD (Chat.new "m" "u") with
              messages :=
                ((lookupStore [] "a").getD (Chat.new "m" "u")).messages ++
                  [⟨.user, "p"⟩] }) ∧
      startCtxs (llama_task "m" "u"
          (insertStore (eraseStore [] "a") "a"
            { (lookupStore [] "a").getD (Chat.new "m" "u") with
                messages :=
                  ((lookupStore [] "a").getD (Chat.new "m" "u")).messages ++
                    [⟨.user, "p"⟩] }) [.chat ⟨"a", "q"⟩] [.sendErr]).2 =
        [("a", "q",
          (((lookupStore [] "a").getD (Chat.new "m" "u")).messages ++
            [⟨.user, "p"⟩]) ++ [⟨.user, "q"⟩])] :=
  C10_failed_prompt_retained "m" "u" [] "a" "p" "q" .sendErr .sendErr
    (Or.inl rfl)

example : stripLeading "!llama" "!llamaclear" = some "clear" := by decide
example : handle_msg_event true "r" "!llamaclear" =
    .sendPrompt "r" "clear" := by decide
example : handle_msg_event false "r" "!llama hello" =
    .sendPrompt "r" " hello" := by decide
example : handle_msg_event false "r" "hello" = .ignored := by decide
example : handle_msg_event true "r" "hello" = .sendPrompt "r" "hello" := by
  decide
example : handle_msg_event true "r" "!llama!llamaclear" = .clrCtx "r" := by
  decide

example :
    (llama_task "m" "u" [] [.chat ⟨"r", "p"⟩] [.sendErr]).2 =
      [.created "r", .callStart "r" "p" [⟨.user, "p"⟩], .callEnd "r",
        .errorLogged "r", .senderDropped "r"] := by decide

example :
    (llama_task "m" "u" [] [.chat ⟨"r", "p"⟩]
        [.response ⟨.assistant, "a"⟩]).1 =
      some [("r", ⟨"m", false, [⟨.user, "p"⟩, ⟨.assistant, "a"⟩], "u"⟩)] := by
  decide

example :
    (llama_task "m" "u" [] [.chat ⟨"r", "p"⟩]
        [.response ⟨.user, "a"⟩]).1 = none := by decide

example :
    slotStateAfter "r"
      (llama_task "m" "u" [] [.chat ⟨"r", "p"⟩] [.sendErr]).2 = .closed := by
  decide

end Llamatrix
